import Mathlib

/-!
Verification development for the pomobot repository (a chat-platform study
timer bot).  The in-memory timer registry, the timer state machine and the
deferred end-of-timer callback are embedded shallowly below.

The repository contains two revisions of the interaction handler:
* `V1` embeds `src/app.js` (plain-object registry, millisecond clocks,
  no saved flag, stop threshold 6 seconds);
* `V2` embeds `src/unnamed/part_001` (Map registry, unix-second clocks,
  a `saved` flag enforcing at-most-once persistence, threshold 60 seconds).

External collaborators (the database writer `saveStudySession` and the
outbound Discord API) are modelled as logs on the system state; the
non-exceptional path of each `await` is modelled (the catch branches only
change the response text, not the registry bookkeeping relevant here).
-/

namespace Pomobot

/-! ## Association-list registry
JS keeps `activeTimers` as an object (V1) or a `Map` (V2) keyed by the
string `userId + "_" + guildId`.  Both are modelled as association lists. -/

def lookupKV {α : Type} : List (String × α) → String → Option α
  | [], _ => none
  | (k, v) :: rest, key => if k = key then some v else lookupKV rest key

def setKV {α : Type} : List (String × α) → String → α → List (String × α)
  | [], key, v => [(key, v)]
  | (k, w) :: rest, key, v =>
      if k = key then (key, v) :: rest else (k, w) :: setKV rest key v

def removeKV {α : Type} : List (String × α) → String → List (String × α)
  | [], _ => []
  | (k, w) :: rest, key => if k = key then rest else (k, w) :: removeKV rest key

theorem lookupKV_setKV_self {α : Type} (l : List (String × α)) (k : String) (v : α) :
    lookupKV (setKV l k v) k = some v := by
  induction l with
  | nil => simp [setKV, lookupKV]
  | cons hd tl ih =>
    obtain ⟨k', w⟩ := hd
    by_cases h : k' = k
    · simp [setKV, h, lookupKV]
    · simp [setKV, h, lookupKV, ih]

theorem lookupKV_setKV_ne {α : Type} (l : List (String × α)) (k k' : String) (v : α)
    (h : k' ≠ k) : lookupKV (setKV l k v) k' = lookupKV l k' := by
  induction l with
  | nil => simp [setKV, lookupKV, Ne.symm h]
  | cons hd tl ih =>
    obtain ⟨k0, w⟩ := hd
    by_cases h0 : k0 = k
    · subst h0
      simp [setKV, lookupKV, Ne.symm h]
    · simp [setKV, h0, lookupKV, ih]

/-- A `componentId.startsWith(p)` test, spelled on the character lists of the
two strings so that it evaluates inside the kernel. -/
def startsWithStr (s p : String) : Bool :=
  List.take p.data.length s.data == p.data

/-! ## Input parsing (`parseTimerInput`, src/app.js lines 370-411)
Free-text input is matched against the regular expression
`^(\d+)\s*([hms])/i`; on a match the value is converted to seconds by the
unit and the rest of the input, trimmed, becomes the task label.  The empty
input and an empty trimmed label fall back to the defaults.  Strings are
modelled as `List Char`. -/

/-- The whitespace class used by the regex `\s` and by `String.trim`
(restricted to the four common whitespace characters). -/
def isSpaceChar (c : Char) : Bool :=
  c == ' ' || c == '\t' || c == '\n' || c == '\r'

def trimChars (s : List Char) : List Char :=
  ((s.dropWhile isSpaceChar).reverse.dropWhile isSpaceChar).reverse

def digitVal (c : Char) : Nat := c.toNat - 48

/-- The numeric value of a digit string, as computed by `parseInt`. -/
def digitsVal (ds : List Char) : Nat :=
  ds.foldl (fun a c => 10 * a + digitVal c) 0

def isHMS (c : Char) : Bool :=
  c.toLower == 'h' || c.toLower == 'm' || c.toLower == 's'

/-- Result of a successful match of `^(\d+)\s*([hms])/i`: the parsed value,
the lower-cased unit character, and the input remainder after the match. -/
def matchDuration (input : List Char) : Option (Nat × Char × List Char) :=
  let ds := input.takeWhile Char.isDigit
  if ds.isEmpty then none
  else
    let after := input.drop ds.length
    let afterWs := after.dropWhile isSpaceChar
    match afterWs with
    | [] => none
    | u :: rest => if isHMS u then some (digitsVal ds, u.toLower, rest) else none

/-- The default task label of src/app.js: `username + "'s timer"`. -/
def defaultTaskV1 (username : List Char) : List Char :=
  username ++ ['\x27', 's', ' ', 't', 'i', 'm', 'e', 'r']

structure ParsedTimer where
  duration : Nat
  task : List Char
  deriving DecidableEq

def parseTimerInput (input : List Char) (username : List Char) : ParsedTimer :=
  if input.isEmpty then { duration := 25 * 60, task := defaultTaskV1 username }
  else
    match matchDuration input with
    | some (value, unit, rest) =>
      let duration :=
        if unit = 'h' then value * 3600
        else if unit = 'm' then value * 60
        else value
      let task := trimChars rest
      { duration := duration,
        task := if task.isEmpty then defaultTaskV1 username else task }
    | none =>
      let task := trimChars input
      { duration := 25 * 60,
        task := if task.isEmpty then defaultTaskV1 username else task }

/-- A durable session record as handed to `saveStudySession`. -/
structure SaveRec where
  userId : String
  task : String
  amount : Int
  guildId : String
  deriving DecidableEq

namespace V1

/-! ## V1: src/app.js
Clocks are JS `Date.now()` milliseconds, modelled as `Int`.  The
`setTimeout` handle is not part of the request-handler state (the scheduler
is modelled separately as `Sched` below, for the callback bookkeeping). -/

inductive TState where
  | running
  | paused
  | stopped
  deriving DecidableEq

structure TimerInfo where
  userId : String
  task : String
  duration : Int
  startTime : Int
  endTime : Int
  state : TState
  remainingTime : Int := 0
  pausedAt : Int := 0
  deriving DecidableEq

structure Sys where
  timers : List (String × TimerInfo)
  saves : List SaveRec
  deriving DecidableEq

inductive Resp where
  | ownershipReject
  | updateMessage (st : TState)
  | stoppedSaved (elapsed : Int)
  | stoppedTooShort (elapsed : Int)
  | completeCongrats
  | incompleteEncourage
  | unknownInteraction
  deriving DecidableEq

/-- HTTP status of each response: everything is sent with `res.send`
(status 200) except the final fall-through `res.status(400)`. -/
def respStatus : Resp → Nat
  | Resp.unknownInteraction => 400
  | _ => 200

/-- The fixed parts of the response contents (interpolated statistics come
from the external stats collaborator and are elided as `...`). -/
def respText : Resp → String
  | Resp.ownershipReject => "⚠️ You can only control your own timer!"
  | Resp.updateMessage _ => "(timer status message re-rendered with current state)"
  | Resp.stoppedSaved e =>
      "⏹️ Timer stopped after " ++ toString (Int.fdiv e 60) ++ " minutes "
        ++ toString (Int.fmod e 60)
        ++ " seconds.\nSession saved! Your updated stats: ..."
  | Resp.stoppedTooShort e =>
      "⏹️ Timer stopped after " ++ toString (Int.fdiv e 60) ++ " minutes "
        ++ toString (Int.fmod e 60)
        ++ " seconds.\nNote: Sessions under 10 minutes are not saved."
  | Resp.completeCongrats => "🎉 Great job completing your task! Your stats: ..."
  | Resp.incompleteEncourage =>
      "💪 That\x27s okay! Would you like to start another timer to continue working on it?"
  | Resp.unknownInteraction => "unknown interaction type"

/-- The `timer_pause` case: only acts on a Running timer; snapshots the
remaining milliseconds and the pause instant (`clearTimeout` is scheduler
state, see `Sched`). -/
def pauseEntry (t : TimerInfo) (now : Int) : TimerInfo :=
  if t.state = TState.running then
    { t with state := TState.paused, pausedAt := now,
             remainingTime := t.endTime - now }
  else t

/-- The `timer_resume` case: only acts on a Paused timer; the new end
instant is `now + remainingTime`. -/
def resumeEntry (t : TimerInfo) (now : Int) : TimerInfo :=
  if t.state = TState.paused then
    { t with state := TState.running, endTime := now + t.remainingTime }
  else t

/-- `Math.floor((Date.now() - timerInfo.startTime) / 1000)` of the
`timer_stop` case. -/
def stopElapsed (t : TimerInfo) (now : Int) : Int :=
  Int.fdiv (now - t.startTime) 1000

/-- The MESSAGE_COMPONENT branch of the interaction handler
(src/app.js lines 34-169).  The requester key is
`member.user.id + "_" + guild_id`; a `task_complete` press with no entry
falls through both completion branches to the 400 fall-through at the end
of the handler. -/
def handleComponent (sys : Sys) (userId guildId cid : String) (now : Int) :
    Sys × Resp :=
  let timerId := userId ++ "_" ++ guildId
  let tinfo := lookupKV sys.timers timerId
  if startsWithStr cid "timer_" then
    match tinfo with
    | none => (sys, Resp.ownershipReject)
    | some t =>
      if t.userId ≠ userId then (sys, Resp.ownershipReject)
      else if cid = "timer_pause" then
        let t1 := pauseEntry t now
        ({ sys with timers := setKV sys.timers timerId t1 },
         Resp.updateMessage t1.state)
      else if cid = "timer_resume" then
        let t1 := resumeEntry t now
        ({ sys with timers := setKV sys.timers timerId t1 },
         Resp.updateMessage t1.state)
      else if cid = "timer_stop" then
        let elapsed := stopElapsed t now
        if 6 ≤ elapsed then
          ({ timers := removeKV sys.timers timerId,
             saves := sys.saves ++
               [{ userId := userId, task := t.task, amount := elapsed,
                  guildId := guildId }] },
           Resp.stoppedSaved elapsed)
        else
          ({ sys with timers := removeKV sys.timers timerId },
           Resp.stoppedTooShort elapsed)
      else (sys, Resp.updateMessage t.state)
  else if cid = "task_complete" then
    match tinfo with
    | some t =>
      ({ sys with saves := sys.saves ++
          [{ userId := userId, task := t.task, amount := t.duration,
             guildId := guildId }] },
       Resp.completeCongrats)
    | none => (sys, Resp.unknownInteraction)
  else if cid = "task_incomplete" then (sys, Resp.incompleteEncourage)
  else (sys, Resp.unknownInteraction)

/-- The fixed text of the end-of-timer webhook prompt. -/
def timesUpText (task : String) : String :=
  "⏰ Time is up! Did you complete your task?\n📝 Task: " ++ task

/-- Body of the `setTimeout` callback armed by `scheduleTimerEnd`
(src/app.js lines 325-363): re-validate the captured entry and bail out
with no outbound message and no mutation unless it still reads Running. -/
def timerEndFire (t : TimerInfo) : Option String × TimerInfo :=
  if t.state ≠ TState.running then (none, t)
  else (some (timesUpText t.task), t)

/-! ### Scheduler model for the start command
The `timer` command handler (src/app.js lines 174-213) stores a fresh
`timerInfo` object under the requester key and arms a new `setTimeout`.
JS object aliasing matters here: an overwritten entry object survives
inside the closure of its still-armed callback, so entries live in a heap
addressed by allocation index. -/

structure SchedEntry where
  key : String
  state : TState
  deriving DecidableEq

structure Sched where
  heap : List SchedEntry
  registry : List (String × Nat)
  pending : List Nat
  deriving DecidableEq

/-- The `timer` command: allocate a fresh Running entry, overwrite the
registry slot for the key, and arm a callback on the new entry.  No
`clearTimeout` is issued for any entry previously stored under the key. -/
def startTimer (s : Sched) (key : String) : Sched :=
  let newId := s.heap.length
  { heap := s.heap ++ [{ key := key, state := TState.running }],
    registry := setKV s.registry key newId,
    pending := s.pending ++ [newId] }

/-- Number of armed callbacks whose captured entry was created under `key`. -/
def pendingFor (s : Sched) (key : String) : Nat :=
  (s.pending.filter (fun i =>
    match s.heap[i]? with
    | some e => e.key == key
    | none => false)).length

end V1

namespace V2

/-! ## V2: src/unnamed/part_001
Clocks are unix seconds (`Math.floor(Date.now() / 1000)`), modelled as
`Int`.  Entries carry the `saved` flag.  The `guildId`/`channelId` routing
fields only feed outbound message endpoints and are elided; the database
guild column comes from the request, which is kept. -/

inductive TState where
  | running
  | paused
  | completed
  deriving DecidableEq

structure TimerInfo where
  userId : String
  task : String
  duration : Int
  startTime : Int
  endTime : Int
  state : TState
  saved : Bool
  remainingTime : Int := 0
  pausedAt : Int := 0
  deriving DecidableEq

structure Sys where
  timers : List (String × TimerInfo)
  saves : List SaveRec
  deriving DecidableEq

inductive Resp where
  | noTimer
  | ownReject
  | updateMessage (st : TState)
  | stopSaved (elapsed : Int)
  | stopNotSaved (elapsed : Int) (alreadySavedEntry : Bool)
  | notFound
  | ownRejectCompletion
  | alreadySaved
  | tooShortCompletion
  | completionStats (confirmedComplete : Bool)
  | unknownInteraction
  deriving DecidableEq

def respStatus : Resp → Nat
  | Resp.unknownInteraction => 400
  | _ => 200

/-- Fixed parts of the response contents (dynamic stats elided as `...`). -/
def respText : Resp → String
  | Resp.noTimer => "⚠️ This timer doesn\x27t exist or has already expired."
  | Resp.ownReject => "⚠️ You can only control your own timers!"
  | Resp.updateMessage _ => "(timer status message re-rendered with current state)"
  | Resp.stopSaved _ =>
      "⏹️ Timer Stopped ... ✅ Session saved! Your updated stats: ..."
  | Resp.stopNotSaved e already =>
      if e < 60 then
        "⏹️ Timer Stopped ...\n\nNote: Sessions under 1 minute are not saved."
      else if already then
        "⏹️ Timer Stopped ...\n\nNote: This session was already saved."
      else "⏹️ Timer Stopped ..."
  | Resp.notFound => "⚠️ Couldn\x27t find your timer session."
  | Resp.ownRejectCompletion => "⚠️ You can only respond to your own timers!"
  | Resp.alreadySaved => "⚠️ This session has already been saved to the database."
  | Resp.tooShortCompletion => "⚠️ Sessions under 1 minute are not saved."
  | Resp.completionStats c =>
      if c then "🎉 Great job completing your task! ..."
      else "💪 Progress is still progress! ..."
  | Resp.unknownInteraction => "Unknown interaction type"

/-- `calculateElapsedTime` (src/unnamed/part_001 lines 712-724): a paused
timer reports the snapshot taken at pause time, anything else reports
`min(now, endTime) - startTime`.  All quantities are already integers, so
the surrounding `Math.floor` calls are omitted. -/
def calculateElapsedTime (t : TimerInfo) (now : Int) : Int :=
  if t.state = TState.paused then t.duration - t.remainingTime
  else min now t.endTime - t.startTime

/-- `handleTimerControlButton` (src/unnamed/part_001 lines 193-328).
Note two faithful oddities of the source: the stop case never assigns a
new state, and the `activeTimers.delete(timerId)` after the stop branches
is dead code (every path above it returns first), so the entry stays in
the registry with `saved = true` after a successful stop-save. -/
def handleTimerControlButton (sys : Sys) (userId guildId cid : String)
    (now : Int) : Sys × Resp :=
  let timerId := userId ++ "_" ++ guildId
  match lookupKV sys.timers timerId with
  | none => (sys, Resp.noTimer)
  | some t =>
    if t.userId ≠ userId then (sys, Resp.ownReject)
    else if cid = "timer_pause" then
      let t1 :=
        if t.state = TState.running then
          { t with remainingTime := t.endTime - now, pausedAt := now,
                   state := TState.paused }
        else t
      ({ sys with timers := setKV sys.timers timerId t1 },
       Resp.updateMessage t1.state)
    else if cid = "timer_resume" then
      let t1 :=
        if t.state = TState.paused then
          { t with endTime := now + t.remainingTime, state := TState.running }
        else t
      ({ sys with timers := setKV sys.timers timerId t1 },
       Resp.updateMessage t1.state)
    else if cid = "timer_stop" then
      let elapsed := calculateElapsedTime t now
      if 60 ≤ elapsed ∧ t.saved = false then
        ({ timers := setKV sys.timers timerId { t with saved := true },
           saves := sys.saves ++
             [{ userId := userId, task := t.task, amount := elapsed,
                guildId := guildId }] },
         Resp.stopSaved elapsed)
      else (sys, Resp.stopNotSaved elapsed t.saved)
    else (sys, Resp.updateMessage t.state)

/-- `handleTaskCompletionButton` (src/unnamed/part_001 lines 333-443):
guards in source order (missing entry, ownership, already saved, minimum
length), then persists, marks `saved`, and transitions to Completed. -/
def handleTaskCompletionButton (sys : Sys) (userId guildId cid : String)
    (now : Int) : Sys × Resp :=
  let timerId := userId ++ "_" ++ guildId
  match lookupKV sys.timers timerId with
  | none => (sys, Resp.notFound)
  | some t =>
    if t.userId ≠ userId then (sys, Resp.ownRejectCompletion)
    else if t.saved = true then (sys, Resp.alreadySaved)
    else
      let sessionDuration := calculateElapsedTime t now
      if sessionDuration < 60 then (sys, Resp.tooShortCompletion)
      else
        ({ timers := setKV sys.timers timerId
             { t with saved := true, state := TState.completed },
           saves := sys.saves ++
             [{ userId := userId, task := t.task, amount := sessionDuration,
                guildId := guildId }] },
         Resp.completionStats (cid == "task_complete"))

/-- The MESSAGE_COMPONENT dispatch (src/unnamed/part_001 lines 55-71). -/
def handleButton (sys : Sys) (userId guildId cid : String) (now : Int) :
    Sys × Resp :=
  if startsWithStr cid "timer_" then
    handleTimerControlButton sys userId guildId cid now
  else if cid = "task_complete" ∨ cid = "task_incomplete" then
    handleTaskCompletionButton sys userId guildId cid now
  else (sys, Resp.unknownInteraction)

/-- Fixed text of the completion prompt posted by
`sendTimerCompletionMessage`. -/
def completionPromptText (t : TimerInfo) : String :=
  "<@" ++ t.userId ++ "> ⏰ Time\x27s up! Did you complete your task?\n📝 Task: "
    ++ t.task

/-- Body of the `setTimeout` callback armed by `scheduleTimerEnd`
(src/unnamed/part_001 lines 500-505): the completion prompt is posted only
if the entry still reads Running at firing time. -/
def timerEndFire (t : TimerInfo) : Option String × TimerInfo :=
  if t.state = TState.running then (some (completionPromptText t), t)
  else (none, t)

end V2

/-! ## Parser lemmas -/

theorem takeWhile_digits_append (ds zs : List Char)
    (h : ∀ c ∈ ds, c.isDigit = true) :
    (ds ++ 'm' :: zs).takeWhile Char.isDigit = ds := by
  induction ds with
  | nil =>
    have hm : ('m').isDigit = false := by decide
    simp [List.takeWhile_cons, hm]
  | cons c cs ih =>
    have hc : c.isDigit = true := h c (by simp)
    have hcs : ∀ x ∈ cs, x.isDigit = true := fun x hx => h x (by simp [hx])
    simp [List.takeWhile_cons, hc, ih hcs]

theorem trimChars_space_cons (l : List Char) :
    trimChars (' ' :: l) = trimChars l := by
  have hs : isSpaceChar ' ' = true := by decide
  simp [trimChars, List.dropWhile_cons, hs]

theorem matchDuration_m_space (ds label : List Char) (hne : ds ≠ [])
    (h : ∀ c ∈ ds, c.isDigit = true) :
    matchDuration (ds ++ 'm' :: ' ' :: label)
      = some (digitsVal ds, 'm', ' ' :: label) := by
  have hm : isSpaceChar 'm' = false := by decide
  have hhms : isHMS 'm' = true := by decide
  have hlow : ('m').toLower = 'm' := by decide
  have hempty : ds.isEmpty = false := by
    cases ds with
    | nil => exact absurd rfl hne
    | cons c cs => rfl
  simp only [matchDuration, takeWhile_digits_append ds (' ' :: label) h,
    hempty, Bool.false_eq_true, if_false, List.drop_left,
    List.dropWhile_cons, hm, hhms, hlow, if_true]

/-- C3 (corrected): parsing the start-command input.  On the source regex
`^(\d+)\s*([hms])/i`, the input `<digits> ++ "m " ++ label` yields
`duration = digitsVal digits * 60` seconds and the trimmed label as the
task, provided the trimmed label is nonempty (an empty or all-whitespace
label falls back to the default task instead, which is the correction);
the empty input yields the defaults 1500 seconds and `username + "'s
timer"`. -/
theorem c3_amended_parse :
    (∀ ds label username : List Char,
      ds ≠ [] → (∀ c ∈ ds, c.isDigit = true) → trimChars label ≠ [] →
      parseTimerInput (ds ++ 'm' :: ' ' :: label) username
        = { duration := digitsVal ds * 60, task := trimChars label })
    ∧ ∀ username : List Char,
      parseTimerInput [] username
        = { duration := 1500, task := defaultTaskV1 username } := by
  constructor
  · intro ds label username hne hdig htrim
    have hempty : (ds ++ 'm' :: ' ' :: label).isEmpty = false := by
      cases ds with
      | nil => exact absurd rfl hne
      | cons c cs => rfl
    have htask : (trimChars label).isEmpty = false := by
      cases htr : trimChars label with
      | nil => exact absurd htr htrim
      | cons c cs => rfl
    simp only [parseTimerInput, hempty, Bool.false_eq_true, if_false,
      matchDuration_m_space ds label hne hdig, trimChars_space_cons,
      htask]
    simp
  · intro username
    simp [parseTimerInput]

/-- C3 witness: the amended theorem applied at input `"42m x"` for
username `"u"`. -/
theorem c3_witness :
    (['4', '2'] : List Char) ≠ []
    ∧ (∀ c ∈ (['4', '2'] : List Char), c.isDigit = true)
    ∧ trimChars ['x'] ≠ []
    ∧ parseTimerInput (['4', '2'] ++ 'm' :: ' ' :: ['x']) ['u']
        = { duration := digitsVal ['4', '2'] * 60, task := trimChars ['x'] } :=
  ⟨by decide, by decide, by decide,
   c3_amended_parse.1 ['4', '2'] ['x'] ['u'] (by decide) (by decide) (by decide)⟩

/-- C3 counterexample: the claim quantifies over every label string, but
for the empty label (input `"5m "`, username `"a"`) the parser substitutes
the default task instead of the trimmed (empty) label. -/
theorem c3_counterexample :
    (parseTimerInput ['5', 'm', ' '] ['a']).duration = 300
    ∧ (parseTimerInput ['5', 'm', ' '] ['a']).task
        = ['a', '\x27', 's', ' ', 't', 'i', 'm', 'e', 'r']
    ∧ (parseTimerInput ['5', 'm', ' '] ['a']).task ≠ trimChars [] := by
  refine ⟨by decide, by decide, by decide⟩

/-! ## Claim theorems on the timer state machine -/

/-- C2 (corrected): the Map-based revision computes stop/completion
elapsed time with `calculateElapsedTime`: the pause-time snapshot
`duration - remainingTime` when Paused, else `min(now, endTime) -
startTime`; for a timer whose end was never pushed out by a pause/resume
cycle (`endTime = startTime + duration`) stopping at or after the
scheduled end yields exactly the planned duration and never more.  (The
src/app.js stop handler instead uses `floor((now - startTime)/1000)`
unclamped — see the counterexample.) -/
theorem c2_amended_elapsed :
    ∀ (t : V2.TimerInfo) (now : Int),
      (t.state = V2.TState.paused →
        V2.calculateElapsedTime t now = t.duration - t.remainingTime)
      ∧ (t.state ≠ V2.TState.paused →
        V2.calculateElapsedTime t now = min now t.endTime - t.startTime)
      ∧ (t.state ≠ V2.TState.paused → t.endTime = t.startTime + t.duration →
          t.endTime ≤ now → V2.calculateElapsedTime t now = t.duration)
      ∧ (t.state ≠ V2.TState.paused → t.endTime ≤ t.startTime + t.duration →
          V2.calculateElapsedTime t now ≤ t.duration) := by
  intro t now
  refine ⟨fun h => by simp [V2.calculateElapsedTime, h], fun h => ?_,
    fun h hend hnow => ?_, fun h hend => ?_⟩
  · simp [V2.calculateElapsedTime, h]
  · have hcalc : V2.calculateElapsedTime t now = min now t.endTime - t.startTime := by
      simp [V2.calculateElapsedTime, h]
    rw [hcalc, min_eq_right (by omega : t.endTime ≤ now)]
    omega
  · have hcalc : V2.calculateElapsedTime t now = min now t.endTime - t.startTime := by
      simp [V2.calculateElapsedTime, h]
    have hm := min_le_right now t.endTime
    omega

/-- C2 witness: a Running timer with planned duration 90 s, start 100,
scheduled end 190, stopped at 250 (a minute past the end), reports exactly
90 elapsed seconds. -/
theorem c2_witness :
    ((⟨"u", "k", 90, 100, 190, V2.TState.running, false, 0, 0⟩ :
        V2.TimerInfo).state ≠ V2.TState.paused)
    ∧ V2.calculateElapsedTime
        ⟨"u", "k", 90, 100, 190, V2.TState.running, false, 0, 0⟩ 250 = 90 :=
  ⟨by decide,
   (c2_amended_elapsed ⟨"u", "k", 90, 100, 190, V2.TState.running, false, 0, 0⟩
      250).2.2.1 (by decide) (by decide) (by decide)⟩

/-- C2 counterexample: in src/app.js, stopping a 10-second timer (start at
0 ms, scheduled end 10000 ms) at 20000 ms persists 20 elapsed seconds,
exceeding the planned 10 seconds — the claimed clamp
`min(now, scheduledEndAt) - startedAt` is absent from that handler. -/
theorem c2_counterexample :
    (V1.handleComponent
        ⟨[("bob_g", ⟨"bob", "read", 10, 0, 10000, V1.TState.running, 0, 0⟩)], []⟩
        "bob" "g" "timer_stop" 20000).1.saves
      = [{ userId := "bob", task := "read", amount := 20, guildId := "g" }]
    ∧ ¬((20 : Int) ≤ 10) := by
  refine ⟨by decide, by decide⟩

/-- C7 (confirmed): when the deferred end-of-timer callback fires on an
entry that is no longer Running, it sends no outbound message and leaves
the entry unchanged, in both handler revisions. -/
theorem c7_notifier_revalidation :
    ∀ (t1 : V1.TimerInfo) (t2 : V2.TimerInfo),
      (t1.state ≠ V1.TState.running → V1.timerEndFire t1 = (none, t1))
      ∧ (t2.state ≠ V2.TState.running → V2.timerEndFire t2 = (none, t2)) := by
  intro t1 t2
  constructor
  · intro h
    simp [V1.timerEndFire, h]
  · intro h
    simp [V2.timerEndFire, h]

/-- C7 witness: paused entries in both revisions produce no message. -/
theorem c7_witness :
    ((⟨"u", "k", 60, 0, 60000, V1.TState.paused, 0, 0⟩ :
        V1.TimerInfo).state ≠ V1.TState.running)
    ∧ V1.timerEndFire ⟨"u", "k", 60, 0, 60000, V1.TState.paused, 0, 0⟩
        = (none, ⟨"u", "k", 60, 0, 60000, V1.TState.paused, 0, 0⟩)
    ∧ V2.timerEndFire ⟨"u", "k", 60, 0, 60, V2.TState.paused, false, 0, 0⟩
        = (none, ⟨"u", "k", 60, 0, 60, V2.TState.paused, false, 0, 0⟩) :=
  ⟨by decide,
   (c7_notifier_revalidation ⟨"u", "k", 60, 0, 60000, V1.TState.paused, 0, 0⟩
      ⟨"u", "k", 60, 0, 60, V2.TState.paused, false, 0, 0⟩).1 (by decide),
   (c7_notifier_revalidation ⟨"u", "k", 60, 0, 60000, V1.TState.paused, 0, 0⟩
      ⟨"u", "k", 60, 0, 60, V2.TState.paused, false, 0, 0⟩).2 (by decide)⟩

/-- C9 (confirmed): pausing a Running entry snapshots
`remainingTime = endTime - now`, and resuming sets
`endTime = now + remainingTime`, so the remaining time captured at pause
equals the recomputed scheduled end minus the resume instant, exactly. -/
theorem c9_pause_resume_roundtrip :
    ∀ (t : V1.TimerInfo) (now1 now2 : Int),
      t.state = V1.TState.running →
      (V1.pauseEntry t now1).state = V1.TState.paused
      ∧ (V1.pauseEntry t now1).remainingTime = t.endTime - now1
      ∧ (V1.resumeEntry (V1.pauseEntry t now1) now2).state = V1.TState.running
      ∧ (V1.resumeEntry (V1.pauseEntry t now1) now2).endTime - now2
          = (V1.pauseEntry t now1).remainingTime := by
  intro t now1 now2 h
  have h1 : V1.pauseEntry t now1
      = { t with state := V1.TState.paused, pausedAt := now1,
                 remainingTime := t.endTime - now1 } := by
    simp [V1.pauseEntry, h]
  refine ⟨by rw [h1], by rw [h1], by rw [h1]; simp [V1.resumeEntry], ?_⟩
  rw [h1]
  simp [V1.resumeEntry]

/-- C9 witness: the round-trip at a concrete Running entry, paused at
10000 ms and resumed at 25000 ms. -/
theorem c9_witness :
    ((⟨"u", "k", 60, 0, 60000, V1.TState.running, 0, 0⟩ :
        V1.TimerInfo).state = V1.TState.running)
    ∧ (V1.resumeEntry
        (V1.pauseEntry ⟨"u", "k", 60, 0, 60000, V1.TState.running, 0, 0⟩ 10000)
        25000).endTime - 25000
      = (V1.pauseEntry ⟨"u", "k", 60, 0, 60000, V1.TState.running, 0, 0⟩
          10000).remainingTime :=
  ⟨by decide,
   (c9_pause_resume_roundtrip ⟨"u", "k", 60, 0, 60000, V1.TState.running, 0, 0⟩
      10000 25000 (by decide)).2.2.2⟩

/-- C10 (confirmed): in the src/app.js stop handler the implemented
minimum savable threshold is 6 seconds: a stop whose elapsed time is at
least 6 seconds appends a session record, while a shorter stop persists
nothing and answers with the text claiming sessions under 10 minutes are
not saved.  (The witness persists a 7-second session.) -/
theorem c10_stop_threshold :
    ∀ (sys : V1.Sys) (u g : String) (now : Int) (t : V1.TimerInfo),
      lookupKV sys.timers (u ++ "_" ++ g) = some t →
      t.userId = u →
      (6 ≤ V1.stopElapsed t now →
        V1.handleComponent sys u g "timer_stop" now
          = ({ timers := removeKV sys.timers (u ++ "_" ++ g),
               saves := sys.saves ++
                 [{ userId := u, task := t.task,
                    amount := V1.stopElapsed t now, guildId := g }] },
             V1.Resp.stoppedSaved (V1.stopElapsed t now)))
      ∧ (V1.stopElapsed t now < 6 →
        V1.handleComponent sys u g "timer_stop" now
          = ({ timers := removeKV sys.timers (u ++ "_" ++ g),
               saves := sys.saves },
             V1.Resp.stoppedTooShort (V1.stopElapsed t now)))
      ∧ V1.respText (V1.Resp.stoppedTooShort (V1.stopElapsed t now))
          = "⏹️ Timer stopped after "
            ++ toString (Int.fdiv (V1.stopElapsed t now) 60) ++ " minutes "
            ++ toString (Int.fmod (V1.stopElapsed t now) 60)
            ++ " seconds.\nNote: Sessions under 10 minutes are not saved." := by
  intro sys u g now t hlook huid
  have hsw : startsWithStr "timer_stop" "timer_" = true := by decide
  have h1 : ("timer_stop" : String) ≠ "timer_pause" := by decide
  have h2 : ("timer_stop" : String) ≠ "timer_resume" := by decide
  refine ⟨fun h6 => ?_, fun h6 => ?_, rfl⟩
  · simp [V1.handleComponent, hlook, hsw, huid, h1, h2, h6]
  · have h6' : ¬ (6 ≤ V1.stopElapsed t now) := by omega
    simp [V1.handleComponent, hlook, hsw, huid, h1, h2, h6']

/-- C10 witness: stopping a timer started at 0 ms at `now = 7000` ms gives
7 elapsed seconds, which is persisted despite the under-10-minutes
response wording for short sessions. -/
theorem c10_witness :
    lookupKV [("bob_g",
        (⟨"bob", "read", 1500, 0, 1500000, V1.TState.running, 0, 0⟩ :
          V1.TimerInfo))] ("bob" ++ "_" ++ "g")
      = some ⟨"bob", "read", 1500, 0, 1500000, V1.TState.running, 0, 0⟩
    ∧ V1.stopElapsed ⟨"bob", "read", 1500, 0, 1500000, V1.TState.running, 0, 0⟩
        7000 = 7
    ∧ V1.handleComponent
        ⟨[("bob_g", ⟨"bob", "read", 1500, 0, 1500000, V1.TState.running, 0, 0⟩)],
         []⟩ "bob" "g" "timer_stop" 7000
      = ({ timers := removeKV
             [("bob_g", ⟨"bob", "read", 1500, 0, 1500000, V1.TState.running, 0, 0⟩)]
             ("bob" ++ "_" ++ "g"),
           saves := [] ++
             [{ userId := "bob", task := "read",
                amount := V1.stopElapsed
                  ⟨"bob", "read", 1500, 0, 1500000, V1.TState.running, 0, 0⟩ 7000,
                guildId := "g" }] },
         V1.Resp.stoppedSaved (V1.stopElapsed
           ⟨"bob", "read", 1500, 0, 1500000, V1.TState.running, 0, 0⟩ 7000)) :=
  ⟨by decide, by decide,
   (c10_stop_threshold
      ⟨[("bob_g", ⟨"bob", "read", 1500, 0, 1500000, V1.TState.running, 0, 0⟩)], []⟩
      "bob" "g" 7000 ⟨"bob", "read", 1500, 0, 1500000, V1.TState.running, 0, 0⟩
      (by decide) (by decide)).1 (by decide)⟩

/-- C8 (corrected): in the Map-based revision every control or completion
command referencing a key with no registry entry gets a clear explanatory
response with success status (200) and no state change.  (src/app.js does
not uniformly do this — see the counterexample, where `task_complete`
with no entry falls through to the 400 unknown-interaction reply.) -/
theorem c8_amended_missing_entry :
    ∀ (sys : V2.Sys) (u g cid : String) (now : Int),
      lookupKV sys.timers (u ++ "_" ++ g) = none →
      V2.handleTimerControlButton sys u g cid now = (sys, V2.Resp.noTimer)
      ∧ V2.handleTaskCompletionButton sys u g cid now = (sys, V2.Resp.notFound)
      ∧ V2.respStatus V2.Resp.noTimer = 200
      ∧ V2.respStatus V2.Resp.notFound = 200
      ∧ V2.respText V2.Resp.noTimer
          = "⚠️ This timer doesn\x27t exist or has already expired."
      ∧ V2.respText V2.Resp.notFound
          = "⚠️ Couldn\x27t find your timer session." := by
  intro sys u g cid now h
  refine ⟨?_, ?_, rfl, rfl, rfl, rfl⟩
  · simp [V2.handleTimerControlButton, h]
  · simp [V2.handleTaskCompletionButton, h]

/-- C8 witness: an empty registry, a stop and a completion press. -/
theorem c8_witness :
    lookupKV ([] : List (String × V2.TimerInfo)) ("bob" ++ "_" ++ "g") = none
    ∧ V2.handleTimerControlButton ⟨[], []⟩ "bob" "g" "timer_stop" 0
        = (⟨[], []⟩, V2.Resp.noTimer)
    ∧ V2.handleTaskCompletionButton ⟨[], []⟩ "bob" "g" "task_complete" 0
        = (⟨[], []⟩, V2.Resp.notFound) :=
  ⟨rfl,
   (c8_amended_missing_entry ⟨[], []⟩ "bob" "g" "timer_stop" 0 rfl).1,
   (c8_amended_missing_entry ⟨[], []⟩ "bob" "g" "task_complete" 0 rfl).2.1⟩

/-- C8 counterexample: in src/app.js a `task_complete` press with no
registry entry is not answered with a "no active timer" message: it falls
through to the handler tail and is answered with the non-success 400
unknown-interaction response. -/
theorem c8_counterexample :
    V1.handleComponent ⟨[], []⟩ "bob" "g" "task_complete" 0
      = (⟨[], []⟩, V1.Resp.unknownInteraction)
    ∧ V1.respStatus V1.Resp.unknownInteraction = 400 := by
  refine ⟨by decide, rfl⟩

/-- C4 (corrected): in the Map-based revision every control and
completion command from a requester other than the entry owner is
rejected with an explanatory response and no state change, and the
src/app.js `timer_` branch does the same; the correction is that the
src/app.js `task_complete` branch performs no ownership check at all (see
the counterexample).  (In both revisions the looked-up key is derived
from the requester, so an owner mismatch cannot arise through the bot's
own start command; the guard is nonetheless what the handlers do.) -/
theorem c4_amended_ownership :
    ∀ (sys2 : V2.Sys) (sys1 : V1.Sys) (u g cid : String) (now : Int)
      (t2 : V2.TimerInfo) (t1 : V1.TimerInfo),
      (lookupKV sys2.timers (u ++ "_" ++ g) = some t2 → t2.userId ≠ u →
        V2.handleTimerControlButton sys2 u g cid now = (sys2, V2.Resp.ownReject)
        ∧ V2.handleTaskCompletionButton sys2 u g cid now
            = (sys2, V2.Resp.ownRejectCompletion))
      ∧ (lookupKV sys1.timers (u ++ "_" ++ g) = some t1 → t1.userId ≠ u →
          startsWithStr cid "timer_" = true →
          V1.handleComponent sys1 u g cid now = (sys1, V1.Resp.ownershipReject)) := by
  intro sys2 sys1 u g cid now t2 t1
  constructor
  · intro hlook huid
    constructor
    · simp [V2.handleTimerControlButton, hlook, huid]
    · simp [V2.handleTaskCompletionButton, hlook, huid]
  · intro hlook huid hsw
    simp [V1.handleComponent, hlook, huid, hsw]

/-- C4 witness: a pause press by `"bob"` against entries owned by
`"alice"` stored under the looked-up key, in both revisions. -/
theorem c4_witness :
    lookupKV [("bob_g",
        (⟨"alice", "write", 1500, 0, 1500, V2.TState.running, false, 0, 0⟩ :
          V2.TimerInfo))] ("bob" ++ "_" ++ "g")
      = some ⟨"alice", "write", 1500, 0, 1500, V2.TState.running, false, 0, 0⟩
    ∧ (⟨"alice", "write", 1500, 0, 1500, V2.TState.running, false, 0, 0⟩ :
          V2.TimerInfo).userId ≠ "bob"
    ∧ V2.handleTimerControlButton
        ⟨[("bob_g", ⟨"alice", "write", 1500, 0, 1500, V2.TState.running, false, 0, 0⟩)],
         []⟩ "bob" "g" "timer_pause" 10
      = (⟨[("bob_g", ⟨"alice", "write", 1500, 0, 1500, V2.TState.running, false, 0, 0⟩)],
          []⟩, V2.Resp.ownReject)
    ∧ V1.handleComponent
        ⟨[("bob_g", ⟨"alice", "write", 1500, 0, 1500000, V1.TState.running, 0, 0⟩)],
         []⟩ "bob" "g" "timer_pause" 10
      = (⟨[("bob_g", ⟨"alice", "write", 1500, 0, 1500000, V1.TState.running, 0, 0⟩)],
          []⟩, V1.Resp.ownershipReject) :=
  ⟨by decide, by decide,
   ((c4_amended_ownership
      ⟨[("bob_g", ⟨"alice", "write", 1500, 0, 1500, V2.TState.running, false, 0, 0⟩)], []⟩
      ⟨[("bob_g", ⟨"alice", "write", 1500, 0, 1500000, V1.TState.running, 0, 0⟩)], []⟩
      "bob" "g" "timer_pause" 10
      ⟨"alice", "write", 1500, 0, 1500, V2.TState.running, false, 0, 0⟩
      ⟨"alice", "write", 1500, 0, 1500000, V1.TState.running, 0, 0⟩).1
      (by decide) (by decide)).1,
   (c4_amended_ownership
      ⟨[("bob_g", ⟨"alice", "write", 1500, 0, 1500, V2.TState.running, false, 0, 0⟩)], []⟩
      ⟨[("bob_g", ⟨"alice", "write", 1500, 0, 1500000, V1.TState.running, 0, 0⟩)], []⟩
      "bob" "g" "timer_pause" 10
      ⟨"alice", "write", 1500, 0, 1500, V2.TState.running, false, 0, 0⟩
      ⟨"alice", "write", 1500, 0, 1500000, V1.TState.running, 0, 0⟩).2
      (by decide) (by decide) (by decide)⟩

/-- C4 counterexample: the src/app.js `task_complete` branch does not
check ownership: with an entry owned by `"alice"` under the looked-up
key, a press by `"bob"` persists a session and answers with the
congratulation, not a rejection. -/
theorem c4_counterexample :
    (V1.handleComponent
        ⟨[("bob_g", ⟨"alice", "write", 1500, 0, 1500000, V1.TState.running, 0, 0⟩)],
         []⟩ "bob" "g" "task_complete" 10000).1.saves
      = [{ userId := "bob", task := "write", amount := 1500, guildId := "g" }]
    ∧ (V1.handleComponent
        ⟨[("bob_g", ⟨"alice", "write", 1500, 0, 1500000, V1.TState.running, 0, 0⟩)],
         []⟩ "bob" "g" "task_complete" 10000).2
      = V1.Resp.completeCongrats
    ∧ V1.Resp.completeCongrats ≠ V1.Resp.ownershipReject := by
  refine ⟨by decide, by decide, by decide⟩

/-- C5 (corrected): in the Map-based revision a completion interaction on
a non-paused entry persists exactly
`min(now, scheduledEndAt) - startedAt` seconds (the value of
`calculateElapsedTime`); a clamp to the planned duration only follows
when the scheduled end was never pushed out by a pause/resume cycle (see
C2).  src/app.js instead persists the planned duration itself on
`task_complete` — see the counterexample. -/
theorem c5_amended_completion_amount :
    ∀ (sys : V2.Sys) (u g cid : String) (now : Int) (t : V2.TimerInfo),
      lookupKV sys.timers (u ++ "_" ++ g) = some t →
      t.userId = u → t.saved = false → t.state ≠ V2.TState.paused →
      60 ≤ min now t.endTime - t.startTime →
      (V2.handleTaskCompletionButton sys u g cid now).1.saves
        = sys.saves ++
          [{ userId := u, task := t.task,
             amount := min now t.endTime - t.startTime, guildId := g }] := by
  intro sys u g cid now t hlook huid hsaved hstate h60
  have hcalc : V2.calculateElapsedTime t now = min now t.endTime - t.startTime := by
    simp [V2.calculateElapsedTime, hstate]
  have hnotlt : ¬ (min now t.endTime - t.startTime < 60) := by omega
  simp [V2.handleTaskCompletionButton, hlook, huid, hsaved, hnotlt, hcalc]

/-- C5 witness: confirming completion of a running 90-second timer
(start 100, end 190) at `now = 250` persists exactly 90 seconds. -/
theorem c5_witness :
    lookupKV [("bob_g",
        (⟨"bob", "read", 90, 100, 190, V2.TState.running, false, 0, 0⟩ :
          V2.TimerInfo))] ("bob" ++ "_" ++ "g")
      = some ⟨"bob", "read", 90, 100, 190, V2.TState.running, false, 0, 0⟩
    ∧ (60 : Int) ≤ min 250 190 - 100
    ∧ (V2.handleTaskCompletionButton
        ⟨[("bob_g", ⟨"bob", "read", 90, 100, 190, V2.TState.running, false, 0, 0⟩)],
         []⟩ "bob" "g" "task_complete" 250).1.saves
      = [] ++
        [{ userId := "bob", task := "read", amount := min 250 190 - 100,
           guildId := "g" }] :=
  ⟨by decide, by decide,
   c5_amended_completion_amount
     ⟨[("bob_g", ⟨"bob", "read", 90, 100, 190, V2.TState.running, false, 0, 0⟩)], []⟩
     "bob" "g" "task_complete" 250
     ⟨"bob", "read", 90, 100, 190, V2.TState.running, false, 0, 0⟩
     (by decide) (by decide) (by decide) (by decide) (by decide)⟩

/-- C5 counterexample: in src/app.js, a `task_complete` press at
`now = 10000` ms on a running 1500-second timer (start 0 ms, end
1500000 ms) persists the planned 1500 seconds, not the claimed
`min(now, scheduledEndAt) - startedAt` (which is 10 seconds here). -/
theorem c5_counterexample :
    (V1.handleComponent
        ⟨[("bob_g", ⟨"bob", "read", 1500, 0, 1500000, V1.TState.running, 0, 0⟩)],
         []⟩ "bob" "g" "task_complete" 10000).1.saves
      = [{ userId := "bob", task := "read", amount := 1500, guildId := "g" }]
    ∧ (1500 : Int)
        ≠ min (Int.fdiv 10000 1000) (Int.fdiv 1500000 1000) - Int.fdiv 0 1000 := by
  refine ⟨by decide, by decide⟩

/-- C6 (corrected): the start command arms a callback for the freshly
allocated entry but never cancels the callback of an entry it overwrites:
each start strictly increases the number of armed callbacks whose
captured entry was created under the key, and every previously armed
callback survives the overwrite. -/
theorem c6_amended_no_cancel :
    ∀ (s : V1.Sched) (key : String),
      (∀ i ∈ s.pending, i < s.heap.length) →
      V1.pendingFor (V1.startTimer s key) key = V1.pendingFor s key + 1
      ∧ ∀ i ∈ s.pending, i ∈ (V1.startTimer s key).pending := by
  intro s key hwf
  have hwfmem : ∀ i ∈ s.pending,
      (s.heap ++ [({ key := key, state := V1.TState.running } : V1.SchedEntry)])[i]?
        = s.heap[i]? := fun i hi => List.getElem?_append_left (hwf i hi)
  constructor
  · simp only [V1.pendingFor, V1.startTimer, List.filter_append,
      List.length_append]
    have h1 : s.pending.filter (fun i =>
          match (s.heap ++
              [({ key := key, state := V1.TState.running } : V1.SchedEntry)])[i]? with
          | some e => e.key == key
          | none => false)
        = s.pending.filter (fun i =>
          match s.heap[i]? with
          | some e => e.key == key
          | none => false) :=
      List.filter_congr (fun i hi => by rw [hwfmem i hi])
    have h2 : (s.heap ++
          [({ key := key, state := V1.TState.running } : V1.SchedEntry)])[s.heap.length]?
        = some { key := key, state := V1.TState.running } :=
      List.getElem?_concat_length _ _
    rw [h1]
    simp [h2]
  · intro i hi
    simp [V1.startTimer, hi]

/-- C6 witness: starting over a key that already has one armed callback
leaves two armed callbacks for that key. -/
theorem c6_witness :
    (∀ i ∈ (V1.startTimer ⟨[], [], []⟩ "bob_g").pending,
        i < (V1.startTimer ⟨[], [], []⟩ "bob_g").heap.length)
    ∧ V1.pendingFor
        (V1.startTimer (V1.startTimer ⟨[], [], []⟩ "bob_g") "bob_g") "bob_g"
      = V1.pendingFor (V1.startTimer ⟨[], [], []⟩ "bob_g") "bob_g" + 1 :=
  ⟨by decide,
   (c6_amended_no_cancel (V1.startTimer ⟨[], [], []⟩ "bob_g") "bob_g"
      (by decide)).1⟩

/-- C6 counterexample: after two start commands for the same key the key
has two armed callbacks — not at most one — and the superseded entry is
still Running, so its stale callback will fire. -/
theorem c6_counterexample :
    V1.pendingFor
        (V1.startTimer (V1.startTimer ⟨[], [], []⟩ "bob_g") "bob_g") "bob_g" = 2
    ∧ ¬ (V1.pendingFor
          (V1.startTimer (V1.startTimer ⟨[], [], []⟩ "bob_g") "bob_g") "bob_g" ≤ 1)
    ∧ 0 ∈ (V1.startTimer (V1.startTimer ⟨[], [], []⟩ "bob_g") "bob_g").pending
    ∧ (V1.startTimer (V1.startTimer ⟨[], [], []⟩ "bob_g") "bob_g").heap[0]?
        = some { key := "bob_g", state := V1.TState.running } := by
  refine ⟨by decide, by decide, by decide, by decide⟩

/-! ## Case analysis for at-most-once persistence (V2) -/

/-- Any single button press either leaves the save log untouched, or
appends exactly one record while the entry under the pressed key ends up
with `saved = true`. -/
theorem hb_saves (sys : V2.Sys) (u g cid : String) (now : Int) :
    (V2.handleButton sys u g cid now).1.saves = sys.saves
    ∨ ((V2.handleButton sys u g cid now).1.saves.length = sys.saves.length + 1
       ∧ ∃ t', lookupKV (V2.handleButton sys u g cid now).1.timers (u ++ "_" ++ g)
           = some t' ∧ t'.saved = true) := by
  simp only [V2.handleButton, V2.handleTimerControlButton,
    V2.handleTaskCompletionButton]
  repeat' split
  any_goals (left; rfl)
  all_goals
    right
    exact ⟨by simp, _, lookupKV_setKV_self _ _ _, rfl⟩

/-- Once the entry under the pressed key has `saved = true`, no press on
that key adds a save record. -/
theorem hb_saved_frozen (sys : V2.Sys) (u g cid : String) (now : Int)
    (t : V2.TimerInfo) (hlook : lookupKV sys.timers (u ++ "_" ++ g) = some t)
    (hsaved : t.saved = true) :
    (V2.handleButton sys u g cid now).1.saves = sys.saves := by
  simp only [V2.handleButton, V2.handleTimerControlButton,
    V2.handleTaskCompletionButton]
  repeat' split
  all_goals simp_all

/-- The `saved` flag is never reset by a press on the key. -/
theorem hb_mono (sys : V2.Sys) (u g cid : String) (now : Int)
    (t : V2.TimerInfo) (hlook : lookupKV sys.timers (u ++ "_" ++ g) = some t)
    (hsaved : t.saved = true) :
    ∃ t', lookupKV (V2.handleButton sys u g cid now).1.timers (u ++ "_" ++ g)
        = some t' ∧ t'.saved = true := by
  simp only [V2.handleButton, V2.handleTimerControlButton,
    V2.handleTaskCompletionButton]
  repeat' split
  all_goals first
    | exact ⟨t, hlook, hsaved⟩
    | (refine ⟨_, lookupKV_setKV_self _ _ _, ?_⟩; simp_all)

/-- C1 (corrected): in the Map-based revision the `saved` flag enforces
at-most-once persistence: any two button presses in sequence against the
same key append at most one session record in total, and a true `saved`
flag survives any press (it is never reset).  src/app.js has no such
flag: its `task_complete` branch persists unconditionally and leaves the
entry registered, so pressing it twice persists two records for the same
entry — see the counterexample.  (Stopping twice in src/app.js is safe
only because the first stop deletes the entry.) -/
theorem c1_amended_at_most_once :
    (∀ (sys : V2.Sys) (u g c1 c2 : String) (n1 n2 : Int),
      ((V2.handleButton (V2.handleButton sys u g c1 n1).1 u g c2 n2).1).saves.length
        ≤ sys.saves.length + 1)
    ∧ (∀ (sys : V2.Sys) (u g cid : String) (now : Int) (t : V2.TimerInfo),
        lookupKV sys.timers (u ++ "_" ++ g) = some t → t.saved = true →
        ∃ t', lookupKV (V2.handleButton sys u g cid now).1.timers (u ++ "_" ++ g)
            = some t' ∧ t'.saved = true) := by
  constructor
  · intro sys u g c1 c2 n1 n2
    rcases hb_saves sys u g c1 n1 with h1 | ⟨hlen1, t', hlook', hsv'⟩
    · rcases hb_saves (V2.handleButton sys u g c1 n1).1 u g c2 n2 with
        h2 | ⟨hlen2, _, _, _⟩
      · rw [h2, h1]
        omega
      · have hlen1 := congrArg List.length h1
        omega
    · have h2 := hb_saved_frozen (V2.handleButton sys u g c1 n1).1 u g c2 n2
        t' hlook' hsv'
      rw [h2]
      omega
  · intro sys u g cid now t hlook hsaved
    exact hb_mono sys u g cid now t hlook hsaved

/-- C1 witness: a stop press on an entry whose session is already saved
leaves the flag true (and, per `hb_saved_frozen` inside the main proof,
adds nothing to the log). -/
theorem c1_witness :
    lookupKV [("bob_g",
        (⟨"bob", "read", 90, 0, 90, V2.TState.running, true, 0, 0⟩ :
          V2.TimerInfo))] ("bob" ++ "_" ++ "g")
      = some ⟨"bob", "read", 90, 0, 90, V2.TState.running, true, 0, 0⟩
    ∧ (⟨"bob", "read", 90, 0, 90, V2.TState.running, true, 0, 0⟩ :
        V2.TimerInfo).saved = true
    ∧ ∃ t', lookupKV
        (V2.handleButton
          ⟨[("bob_g", ⟨"bob", "read", 90, 0, 90, V2.TState.running, true, 0, 0⟩)],
           []⟩ "bob" "g" "timer_stop" 200).1.timers ("bob" ++ "_" ++ "g")
        = some t' ∧ t'.saved = true :=
  ⟨by decide, rfl,
   c1_amended_at_most_once.2
     ⟨[("bob_g", ⟨"bob", "read", 90, 0, 90, V2.TState.running, true, 0, 0⟩)], []⟩
     "bob" "g" "timer_stop" 200
     ⟨"bob", "read", 90, 0, 90, V2.TState.running, true, 0, 0⟩ (by decide) rfl⟩

/-- C1 counterexample: in src/app.js two `task_complete` presses in
sequence against the same entry persist two session records (the handler
neither marks nor removes the entry). -/
theorem c1_counterexample :
    ((V1.handleComponent
        (V1.handleComponent
          ⟨[("bob_g", ⟨"bob", "read", 1500, 0, 1500000, V1.TState.running, 0, 0⟩)],
           []⟩ "bob" "g" "task_complete" 1500000).1
        "bob" "g" "task_complete" 1500001).1).saves.length = 2 := by
  decide

end Pomobot
